import Mathlib

/-!
Shallow embedding of the Agroscan heuristic inference pipeline
(`src/models/quality_assessor.py`, `src/models/disease_detector.py`,
`src/models/crop_classifier.py`).

Python floats are modelled by `ℚ` wherever the source computes rational
values, and by `ℝ` where `np.std` (a square root) or `np.exp` appears.
Division follows Lean's `x / 0 = 0` convention; every place where this
could diverge from float semantics (`nan`/`inf`) is noted next to the
definition and is irrelevant to the claims settled here.
-/

/-- An RGB pixel: three channel samples (the source treats them as floats). -/
abbrev Pixel : Type := ℚ × ℚ × ℚ

/-- An image: a list of rows of RGB pixels (a `h × w × 3` numpy array). -/
abbrev Image : Type := List (List Pixel)

/-- `arr.size` of a `h × w × 3` numpy array: the number of scalar entries. -/
def imageSize (img : Image) : ℕ :=
  (img.map (fun row => 3 * row.length)).sum

/-- `np.mean` over a flat list of rationals.  (`np.mean([])` is `nan` in
numpy; here the empty case yields `0` by the `x / 0 = 0` convention.  No
claim below depends on the empty case.) -/
def npMean (xs : List ℚ) : ℚ := xs.sum / xs.length

/-- `np.var` over a flat list of rationals: mean squared deviation from the
mean.  `np.std` is the square root of this value and is taken in `ℝ` at the
point of use. -/
def npVar (xs : List ℚ) : ℚ :=
  npMean (xs.map (fun x => (x - npMean xs) ^ 2))

/-! ## Quality Assessor (`src/models/quality_assessor.py`) -/

/-- The result dictionary built by `QualityAssessor.assess_quality`
(lines 45-55 / 62-72): status, confidence, spoilage score and the four
indicator sub-scores (color, texture, shape, surface). -/
structure QualityResult where
  status : String
  confidence : ℚ
  spoilage_score : ℚ
  indicators : ℚ × ℚ × ℚ × ℚ
  deriving DecidableEq

/-- `QualityAssessor._get_default_result` (lines 60-72). -/
def getDefaultResult : QualityResult :=
  { status := "unknown"
    confidence := 1/2
    spoilage_score := 1/2
    indicators := (1/2, 1/2, 1/2, 1/2) }

/-- The per-crop weight table of `_calculate_spoilage_score` (lines 218-223),
as tuples `(color, texture, shape, surface)`; `weights.get(crop_type,
weights['corn'])` falls back to the corn row for unknown crops (line 225). -/
def cropWeights (crop_type : String) : ℚ × ℚ × ℚ × ℚ :=
  if crop_type = "corn" then (4/10, 3/10, 1/10, 2/10)
  else if crop_type = "tomato" then (3/10, 2/10, 2/10, 3/10)
  else if crop_type = "yam" then (4/10, 2/10, 1/10, 3/10)
  else if crop_type = "cassava" then (4/10, 2/10, 1/10, 3/10)
  else (4/10, 3/10, 1/10, 2/10)

/-- `QualityAssessor._calculate_spoilage_score` (lines 215-234): the
weighted fusion of the four sub-scores, clamped by `min(·, 1.0)`. -/
def calculateSpoilageScore (color texture shape surface : ℚ)
    (crop_type : String) : ℚ :=
  let w := cropWeights crop_type
  min (color * w.1 + texture * w.2.1 + shape * w.2.2.1 + surface * w.2.2.2) 1

/-- `QualityAssessor.assess_quality` (lines 16-58).  The four feature
analyses (`_analyze_color_degradation`, `_analyze_texture_degradation`,
`_analyze_shape_degradation`, `_analyze_surface_condition`) are built on
OpenCV primitives (`cvtColor`, `Canny`, `findContours`, `HoughLinesP`)
external to this repository; they are therefore passed in as a single
parameter `analyze` returning the 4-tuple of sub-scores, with `none`
standing for an exception raised anywhere during feature computation
(caught by the `try`/`except` at lines 18/57).  The explicit
`image.size == 0` validation (line 23) is kept separate, as in the source. -/
def assessQuality (analyze : Image → String → Option (ℚ × ℚ × ℚ × ℚ))
    (image : Image) (crop_type : String) : QualityResult :=
  if imageSize image = 0 then getDefaultResult
  else
    match analyze image crop_type with
    | none => getDefaultResult
    | some (color, texture, shape, surface) =>
        let spoilage_score := calculateSpoilageScore color texture shape surface crop_type
        if spoilage_score < 3/10 then
          { status := "fresh"
            confidence := min (1 - spoilage_score) (95/100)
            spoilage_score := spoilage_score
            indicators := (color, texture, shape, surface) }
        else
          { status := "spoiled"
            confidence := min spoilage_score (95/100)
            spoilage_score := spoilage_score
            indicators := (color, texture, shape, surface) }

/-! ## Disease Detector (`src/models/disease_detector.py`) -/

/-- A Python dictionary value as it appears in the result of
`DiseaseDetector.detect_disease`: a string, a float, or the nested
`all_scores` mapping.  The result dictionary itself is modelled as a list
of key–value pairs in the literal's insertion order, so that which keys
are present (and in what order) is part of the model. -/
inductive PyVal where
  | str (v : String)
  | rat (v : ℚ)
  | scoreMap (v : List (String × ℚ))
  deriving DecidableEq

/-- `DiseaseDetector._determine_severity` (lines 218-228).  The Python
method also receives the image, the disease type and the crop type, but
reads none of them: the bucket depends only on the winning score. -/
def determineSeverity (confidence_score : ℚ) : String :=
  if confidence_score < 3/10 then "mild"
  else if confidence_score < 6/10 then "moderate"
  else if confidence_score < 8/10 then "severe"
  else "critical"

/-- One pattern's contribution in `_analyze_color_patterns`
(lines 156-183): the named sub-detector's output times its fixed weight;
a name outside the `elif` chain contributes nothing.  The sub-detectors
(`_detect_gray_spots`, …) are OpenCV mask statistics over the image;
`d` maps each pattern name to the sub-detector's output on the image
under analysis. -/
def colorPatternTerm (d : String → ℚ) (pattern : String) : ℚ :=
  if pattern = "gray_spots" then d "gray_spots" * (3/10)
  else if pattern = "black_mold" then d "black_mold" * (4/10)
  else if pattern = "brown_discoloration" then d "brown_discoloration" * (3/10)
  else if pattern = "yellow_edges" then d "yellow_edges" * (2/10)
  else if pattern = "holes" then d "holes" * (5/10)
  else if pattern = "white_fuzzy_spots" then d "white_fuzzy_spots" * (4/10)
  else if pattern = "dark_spots" then d "dark_spots" * (3/10)
  else if pattern = "deep_red" then d "deep_red" * (2/10)
  else if pattern = "black_bottom" then d "black_bottom" * (5/10)
  else if pattern = "white_mold" then d "white_mold" * (4/10)
  else if pattern = "green_shoots" then d "green_shoots" * (6/10)
  else if pattern = "blue_discoloration" then d "blue_discoloration" * (4/10)
  else if pattern = "brown_streaks" then d "brown_streaks" * (3/10)
  else 0

/-- One pattern's contribution in `_analyze_texture_patterns`
(lines 192-215), analogous to `colorPatternTerm`. -/
def texturePatternTerm (d : String → ℚ) (pattern : String) : ℚ :=
  if pattern = "fuzzy_growth" then d "fuzzy_growth" * (4/10)
  else if pattern = "irregular_surface" then d "irregular_surface" * (2/10)
  else if pattern = "soft_kernels" then d "soft_kernels" * (3/10)
  else if pattern = "liquid_discharge" then d "liquid_discharge" * (5/10)
  else if pattern = "irregular_holes" then d "irregular_holes" * (4/10)
  else if pattern = "soft_spots" then d "soft_spots" * (3/10)
  else if pattern = "wrinkled_surface" then d "wrinkled_surface" * (3/10)
  else if pattern = "sunken_area" then d "sunken_area" * (4/10)
  else if pattern = "protruding_growth" then d "protruding_growth" * (5/10)
  else if pattern = "fiber_separation" then d "fiber_separation" * (3/10)
  else if pattern = "tunnel_patterns" then d "tunnel_patterns" * (4/10)
  else 0

/-- `DiseaseDetector._analyze_color_patterns` (lines 149-184): sum of the
weighted contributions of the listed patterns, clamped by `min(·, 1.0)`. -/
def analyzeColorPatterns (d : String → ℚ) (color_patterns : List String) : ℚ :=
  min (color_patterns.foldl (fun acc p => acc + colorPatternTerm d p) 0) 1

/-- `DiseaseDetector._analyze_texture_patterns` (lines 186-216). -/
def analyzeTexturePatterns (d : String → ℚ) (texture_patterns : List String) : ℚ :=
  min (texture_patterns.foldl (fun acc p => acc + texturePatternTerm d p) 0) 1

/-- `DiseaseDetector._analyze_disease_pattern` (lines 139-147):
`0.6 · color_score + 0.4 · texture_score`. -/
def analyzeDiseasePattern (d : String → ℚ)
    (color_patterns texture_patterns : List String) : ℚ :=
  6/10 * analyzeColorPatterns d color_patterns +
    4/10 * analyzeTexturePatterns d texture_patterns

/-- The static `disease_patterns` catalog (lines 9-98), in dictionary
insertion order: crop → list of `(disease, color_patterns,
texture_patterns)`.  The `severity_indicators` entries of the Python dict
are never read by any code path and are omitted. -/
def diseasePatterns :
    List (String × List (String × List String × List String)) :=
  [("corn",
    [("fungal_infection", ["gray_spots", "black_mold"],
        ["fuzzy_growth", "irregular_surface"]),
     ("bacterial_rot", ["brown_discoloration", "yellow_edges"],
        ["soft_kernels", "liquid_discharge"]),
     ("pest_damage", ["holes", "chewed_kernels"],
        ["irregular_holes", "damaged_surface"]),
     ("overripeness", ["dark_kernels", "brown_patches"],
        ["dried_surface", "hardened_kernels"])]),
   ("tomato",
    [("fungal_infection", ["gray_mold", "white_fuzzy_spots"],
        ["fuzzy_growth", "soft_spots"]),
     ("bacterial_rot", ["dark_spots", "black_patches"],
        ["liquid_spots", "soft_areas"]),
     ("overripeness", ["deep_red", "brown_patches"],
        ["soft_skin", "wrinkled_surface"]),
     ("blossom_end_rot", ["black_bottom", "dark_circular_spot"],
        ["sunken_area", "hardened_spot"])]),
   ("yam",
    [("fungal_infection", ["white_mold", "gray_spots"],
        ["fuzzy_surface", "soft_spots"]),
     ("bacterial_rot", ["dark_patches", "black_spots"],
        ["soft_areas", "liquid_discharge"]),
     ("storage_rot", ["brown_discoloration", "dark_areas"],
        ["soft_flesh", "collapsed_areas"]),
     ("sprouting", ["green_shoots", "white_roots"],
        ["protruding_growth", "bumpy_surface"])]),
   ("cassava",
    [("fungal_infection", ["black_spots", "gray_mold"],
        ["fuzzy_growth", "soft_areas"]),
     ("bacterial_rot", ["brown_streaks", "dark_discoloration"],
        ["soft_flesh", "watery_areas"]),
     ("storage_deterioration", ["blue_discoloration", "brown_lines"],
        ["fiber_separation", "tough_areas"]),
     ("pest_damage", ["holes", "chewed_areas"],
        ["tunnel_patterns", "irregular_holes"])])]

/-- Python's `max(disease_scores, key=disease_scores.get)` over a dict in
insertion order: walk the remaining entries, replacing the current best
only on a strictly greater score, so the first maximal entry wins. -/
def pickMax (x : String × ℚ) (l : List (String × ℚ)) : String × ℚ :=
  l.foldl (fun best cur => if best.2 < cur.2 then cur else best) x

/-- `DiseaseDetector._get_disease_description` (lines 230-243). -/
def getDiseaseDescription (disease_type crop_type : String) : String :=
  if disease_type = "fungal_infection" then
    "Fungal infection detected on " ++ crop_type ++
      ". Characterized by mold growth and discoloration."
  else if disease_type = "bacterial_rot" then
    "Bacterial rot affecting " ++ crop_type ++
      ". Shows soft spots and discoloration."
  else if disease_type = "pest_damage" then
    "Pest damage visible on " ++ crop_type ++ ". Shows holes and chewed areas."
  else if disease_type = "overripeness" then
    crop_type.capitalize ++ " is overripe. Shows color changes and texture deterioration."
  else if disease_type = "blossom_end_rot" then
    "Blossom end rot in tomato. Dark spot at blossom end due to calcium deficiency."
  else if disease_type = "storage_rot" then
    "Storage rot in " ++ crop_type ++ ". Deterioration due to improper storage conditions."
  else if disease_type = "sprouting" then
    "Sprouting detected in " ++ crop_type ++ ". New growth indicating storage issues."
  else if disease_type = "storage_deterioration" then
    "Storage deterioration in " ++ crop_type ++ ". Quality loss due to storage conditions."
  else "Unspecified spoilage detected in " ++ crop_type ++ "."

/-- `DiseaseDetector.detect_disease` (lines 100-137).  As with the quality
assessor, the per-pattern sub-detectors are OpenCV statistics of the input
image and are abstracted into the oracle `d : String → ℚ` giving each
sub-detector's output on the image under analysis; everything downstream
of them is embedded exactly.  The result is the Python dict as a key–value
list in literal order.  (`best` on an empty catalog entry is a dummy —
every crop in `diseasePatterns` has a nonempty disease list, and Python's
`max` would raise on an empty dict.) -/
def detectDisease (d : String → ℚ) (crop_type : String) :
    List (String × PyVal) :=
  match diseasePatterns.lookup crop_type with
  | none =>
      [("disease_type", PyVal.str "unknown_spoilage"),
       ("confidence", PyVal.rat (1/2)),
       ("severity", PyVal.str "moderate"),
       ("description",
        PyVal.str "Spoilage detected but specific type could not be determined")]
  | some crop_diseases =>
      let disease_scores := crop_diseases.map
        (fun e => (e.1, analyzeDiseasePattern d e.2.1 e.2.2))
      let best := match disease_scores with
        | [] => ("", 0)
        | x :: rest => pickMax x rest
      [("disease_type", PyVal.str best.1),
       ("confidence", PyVal.rat (min best.2 (95/100))),
       ("severity", PyVal.str (determineSeverity best.2)),
       ("description", PyVal.str (getDiseaseDescription best.1 crop_type)),
       ("all_scores", PyVal.scoreMap disease_scores)]

/-- The `confidence` field of a `detect_disease` result. -/
def getConfidence (r : List (String × PyVal)) : ℚ :=
  match r.lookup "confidence" with
  | some (PyVal.rat q) => q
  | _ => 0

/-! ## Species Classifier (`src/models/crop_classifier.py`) -/

/-- The per-pixel `max - min` of the 255-normalized channels (the `diff`
array of `_rgb_to_hsv`, line 148). -/
def pixelDiff (p : Pixel) : ℚ :=
  max (p.1 / 255) (max (p.2.1 / 255) (p.2.2 / 255)) -
    min (p.1 / 255) (min (p.2.1 / 255) (p.2.2 / 255))

/-- Per-pixel body of `CropClassifier._rgb_to_hsv` (lines 139-158): the
channels are divided by 255; value is the channel maximum; saturation is
`diff / max` with 0 where the maximum is 0 (`np.where`); hue is
initialized to `np.zeros_like(max_val)` and — although the mask
`diff != 0` is computed — never assigned, so it is 0 at every pixel. -/
def pixelHsv (p : Pixel) : ℚ × ℚ × ℚ :=
  let r := p.1 / 255
  let g := p.2.1 / 255
  let b := p.2.2 / 255
  let max_val := max r (max g b)
  let min_val := min r (min g b)
  let diff := max_val - min_val
  let hue : ℚ := 0
  let saturation := if max_val ≠ 0 then diff / max_val else 0
  (hue, saturation, max_val)

/-- `CropClassifier._rgb_to_hsv` over the whole array (elementwise). -/
def rgbToHsv (image : Image) : List (List (ℚ × ℚ × ℚ)) :=
  image.map (fun row => row.map pixelHsv)

/-- `np.dot(image[...,:3], [0.2989, 0.5870, 0.1140])` (lines 187/210). -/
def grayscale (image : Image) : List (List ℚ) :=
  image.map (fun row => row.map
    (fun p => p.1 * (2989/10000) + p.2.1 * (5870/10000) + p.2.2 * (1140/10000)))

/-- `np.diff(·, axis=0)`: difference of consecutive rows; the output has
one row less than the input. -/
def diffAxis0 : List (List ℚ) → List (List ℚ)
  | [] => []
  | [_] => []
  | r1 :: r2 :: rest =>
      (List.zipWith (fun a b => b - a) r1 r2) :: diffAxis0 (r2 :: rest)

/-- `np.diff(·, axis=1, prepend=0)`: within each row, differences after
prepending a 0, so the output keeps the input's shape. -/
def diffAxis1Prepend0 (m : List (List ℚ)) : List (List ℚ) :=
  m.map (fun row => List.zipWith (fun a b => b - a) (0 :: row) row)

/-- Elementwise absolute value (`np.abs`). -/
def absMat (m : List (List ℚ)) : List (List ℚ) :=
  m.map (fun row => row.map (fun x => |x|))

/-- Numpy elementwise addition with broadcasting along axis 0: the row
counts must be equal or one of them must be 1 (stretched over the other),
otherwise numpy raises — modelled by `none`.  The two operands of the only
use site (`edges`, lines 193/226) always agree in width. -/
def npAdd2 (A B : List (List ℚ)) : Option (List (List ℚ)) :=
  if A.length = B.length then some (List.zipWith (List.zipWith (· + ·)) A B)
  else if A.length = 1 then
    some (B.map (fun row => List.zipWith (· + ·) (A.headD []) row))
  else if B.length = 1 then
    some (A.map (fun row => List.zipWith (· + ·) row (B.headD [])))
  else none

/-- Insert into a sorted list (ascending). -/
def insertSorted (x : ℚ) : List ℚ → List ℚ
  | [] => [x]
  | y :: ys => if x ≤ y then x :: y :: ys else y :: insertSorted x ys

/-- `np.sort` of the flattened data, as an insertion sort. -/
def sortQ (xs : List ℚ) : List ℚ := xs.foldr insertSorted []

/-- `np.percentile(xs, q)` with the default linear interpolation:
`pos = q/100 · (n-1)`, interpolating between the neighbouring order
statistics.  numpy raises on an empty array — modelled by `none`. -/
def npPercentile (xs : List ℚ) (q : ℚ) : Option ℚ :=
  let sorted := sortQ xs
  if sorted.isEmpty then none
  else
    let n := sorted.length
    let pos := q * (n - 1) / 100
    let i := (⌊pos⌋).toNat
    let lo := sorted.getD i 0
    let hi := sorted.getD (i + 1) lo
    some (lo + (pos - (i : ℚ)) * (hi - lo))

/-- `np.mean` of a boolean mask: the fraction of `true` pixels. -/
def maskMean (m : List (List Bool)) : ℚ :=
  npMean (m.flatten.map (fun b => if b then 1 else 0))

/-- The rational-valued statistics extracted by
`_extract_color_features` / `_extract_texture_features` /
`_extract_shape_features` (lines 160-233).  `np.std`-based features
(`smooth`, `rough`, `irregular`) keep their mean and variance here; the
square root is taken in `ℝ` by `smoothF`, `roughF`, `irregularF` below. -/
structure FeatureStats where
  dominant_yellow : ℚ
  dominant_red : ℚ
  dominant_brown : ℚ
  dominant_white : ℚ
  grid_pattern : ℚ
  gray_mean : ℚ
  gray_var : ℚ
  edges_mean : ℚ
  edges_var : ℚ
  fibrous : ℚ
  elongated : ℚ
  round : ℚ
  cylindrical : ℚ
  deriving DecidableEq

/-- The feature-extraction pipeline of `_apply_crop_heuristics`
(lines 84-87), with the statistics of lines 160-233.  The `edges` array
`np.abs(np.diff(gray, axis=0)) + np.abs(np.diff(gray, axis=1, prepend=0))`
adds a `(h-1) × w` and an `h × w` array, which numpy only broadcasts when
`h ≤ 2`; `np.percentile` then raises when `edges` is empty — both failure
modes yield `none` (in the source, an uncaught exception from
`_extract_texture_features`).  The same `edges` expression is recomputed
identically for `irregular` in `_extract_shape_features`.  Aspect-ratio
features follow lines 213-231 with `aspect_ratio = width / height`. -/
def extractStats (image : Image) : Option FeatureStats :=
  let hsv := rgbToHsv image
  let gray := grayscale image
  let A := absMat (diffAxis0 gray)
  let B := absMat (diffAxis1Prepend0 gray)
  match npAdd2 A B with
  | none => none
  | some edges =>
    let edgesFlat := edges.flatten
    match npPercentile edgesFlat 80 with
    | none => none
    | some p80 =>
      let grayFlat := gray.flatten
      let aspect_ratio : ℚ := ((gray.headD []).length : ℚ) / (gray.length : ℚ)
      some
        { dominant_yellow := maskMean (hsv.map (fun row => row.map
            (fun x => decide (8/100 ≤ x.1 ∧ x.1 ≤ 17/100 ∧
              3/10 < x.2.1 ∧ 3/10 < x.2.2))))
          dominant_red := maskMean (hsv.map (fun row => row.map
            (fun x => decide ((x.1 ≤ 5/100 ∨ 95/100 ≤ x.1) ∧
              3/10 < x.2.1 ∧ 3/10 < x.2.2))))
          dominant_brown := maskMean (hsv.map (fun row => row.map
            (fun x => decide (5/100 ≤ x.1 ∧ x.1 ≤ 15/100 ∧
              2/10 < x.2.1 ∧ x.2.2 < 6/10))))
          dominant_white := maskMean (hsv.map (fun row => row.map
            (fun x => decide (x.2.1 < 2/10 ∧ 7/10 < x.2.2))))
          grid_pattern := npMean (edgesFlat.map (fun e => if p80 < e then 1 else 0))
          gray_mean := npMean grayFlat
          gray_var := npVar grayFlat
          edges_mean := npMean edgesFlat
          edges_var := npVar edgesFlat
          fibrous := npMean A.flatten / 255
          elongated := if aspect_ratio > 3/2 ∨ aspect_ratio < 67/100 then
              min aspect_ratio (1 / aspect_ratio) else 0
          round := 1 - |aspect_ratio - 1|
          cylindrical := if aspect_ratio > 2 then aspect_ratio / 3 else 0 }

/-- `features['smooth'] = 1.0 - np.std(gray) / np.mean(gray)` (line 197).
(`ℝ`-division; a zero mean gives `nan` in numpy and `1` here by the
`x / 0 = 0` convention — no claim depends on that pixel-degenerate case.) -/
noncomputable def smoothF (st : FeatureStats) : ℝ :=
  1 - Real.sqrt (st.gray_var : ℝ) / (st.gray_mean : ℝ)

/-- `features['rough'] = np.std(edges) / np.mean(edges) if np.mean(edges) > 0
else 0` (line 200). -/
noncomputable def roughF (st : FeatureStats) : ℝ :=
  if 0 < st.edges_mean then Real.sqrt (st.edges_var : ℝ) / (st.edges_mean : ℝ)
  else 0

/-- `edge_complexity = np.std(edges) / (np.mean(edges) + 1e-6)`;
`features['irregular'] = min(edge_complexity / 2.0, 1.0)` (lines 227-228). -/
noncomputable def irregularF (st : FeatureStats) : ℝ :=
  min (Real.sqrt (st.edges_var : ℝ) / ((st.edges_mean : ℝ) + 1/1000000) / 2) 1

/-- The corn heuristic (lines 93-99): threshold triggers on
`dominant_yellow`, `grid_pattern`, `elongated`. -/
def cornScore (st : FeatureStats) : ℚ :=
  (if st.dominant_yellow > 3/10 then 4/10 else 0) +
  (if st.grid_pattern > 5/10 then 3/10 else 0) +
  (if st.elongated > 6/10 then 3/10 else 0)

/-- The tomato heuristic (lines 102-108): triggers on `dominant_red`,
`round`, `smooth`. -/
noncomputable def tomatoScore (st : FeatureStats) : ℝ :=
  (if st.dominant_red > 4/10 then (5/10 : ℝ) else 0) +
  (if st.round > 7/10 then 3/10 else 0) +
  (if smoothF st > 6/10 then 2/10 else 0)

/-- The yam heuristic (lines 111-117): triggers on `dominant_brown`,
`rough`, `irregular`. -/
noncomputable def yamScore (st : FeatureStats) : ℝ :=
  (if st.dominant_brown > 3/10 then (4/10 : ℝ) else 0) +
  (if roughF st > 5/10 then 3/10 else 0) +
  (if irregularF st > 6/10 then 3/10 else 0)

/-- The cassava heuristic (lines 120-126): triggers on `dominant_white`,
`cylindrical`, `fibrous`. -/
def cassavaScore (st : FeatureStats) : ℚ :=
  (if st.dominant_white > 3/10 then 4/10 else 0) +
  (if st.cylindrical > 5/10 then 3/10 else 0) +
  (if st.fibrous > 4/10 then 3/10 else 0)

/-- `heuristic_scores = np.array([corn_score, yam_score, cassava_score,
tomato_score])` (line 129), index-matched to
`crop_classes = ['corn', 'yam', 'cassava', 'tomato']`. -/
noncomputable def heuristicScores (st : FeatureStats) : Fin 4 → ℝ := fun i =>
  if i = 0 then (cornScore st : ℝ)
  else if i = 1 then yamScore st
  else if i = 2 then (cassavaScore st : ℝ)
  else tomatoScore st

/-- `final_scores = 0.7 * scores + 0.3 * heuristic_scores` (line 132),
with `base` the neural network's prediction vector. -/
noncomputable def finalScores (base : Fin 4 → ℝ) (st : FeatureStats) :
    Fin 4 → ℝ :=
  fun i => (7/10) * base i + (3/10) * heuristicScores st i

/-- `final_scores = np.exp(final_scores) / np.sum(np.exp(final_scores))`
(line 135). -/
noncomputable def softmax (f : Fin 4 → ℝ) : Fin 4 → ℝ :=
  fun i => Real.exp (f i) / ∑ j, Real.exp (f j)

/-- `CropClassifier._apply_crop_heuristics` (lines 81-137): extract the
features, fuse the base prediction with the heuristic scores and
normalize by softmax; `none` when feature extraction raises. -/
noncomputable def applyCropHeuristics (image : Image) (base : Fin 4 → ℝ) :
    Option (Fin 4 → ℝ) :=
  (extractStats image).map (fun st => softmax (finalScores base st))

/-- The all-yellow (RGB `(255, 255, 0)`), elongated (2×4, aspect ratio 2)
synthetic test image of the C8 scenario. -/
def yellowTestImage : Image :=
  List.replicate 2 (List.replicate 4 ((255 : ℚ), (255 : ℚ), (0 : ℚ)))

/-- The feature statistics the source pipeline computes on
`yellowTestImage` (checked below by kernel evaluation of `extractStats`):
every pixel has hue 0, saturation 1, value 1, so the red mask — not the
yellow one — fires everywhere; the grayscale value is
`255 · 0.8859 = 451809/2000`, the `edges` array holds that value in its
first column and 0 elsewhere. -/
def yellowStats : FeatureStats :=
  { dominant_yellow := 0
    dominant_red := 1
    dominant_brown := 0
    dominant_white := 0
    grid_pattern := 1/4
    gray_mean := 451809/2000
    gray_var := 0
    edges_mean := 451809/8000
    edges_var := 612394117443/64000000
    fibrous := 0
    elongated := 1/2
    round := 0
    cylindrical := 0 }

/-- A minimal image on which the classifier's feature extraction
succeeds: 2×1, all black. -/
def darkTestImage : Image := [[(0, 0, 0)], [(0, 0, 0)]]

/-- The feature statistics of `darkTestImage` (checked below by kernel
evaluation of `extractStats`). -/
def darkStats : FeatureStats :=
  { dominant_yellow := 0
    dominant_red := 0
    dominant_brown := 0
    dominant_white := 0
    grid_pattern := 0
    gray_mean := 0
    gray_var := 0
    edges_mean := 0
    edges_var := 0
    fibrous := 0
    elongated := 1/2
    round := 1/2
    cylindrical := 0 }

/-! ## Theorems -/

/-- **C1.** For every image on which the feature computation succeeds
(the image is not zero-size and the four sub-score analyses return values),
`assess_quality` reports `fresh` iff the fused spoilage score is strictly
below `0.3` (so a score of exactly `0.3` is `spoiled`, the only other
status on this path), and the confidence is `min(1 - spoilage_score, 0.95)`
when fresh and `min(spoilage_score, 0.95)` when spoiled. -/
theorem assess_quality_decision_rule
    (analyze : Image → String → Option (ℚ × ℚ × ℚ × ℚ))
    (image : Image) (crop_type : String) (c t sh su : ℚ)
    (hsz : imageSize image ≠ 0)
    (hfeat : analyze image crop_type = some (c, t, sh, su)) :
    let r := assessQuality analyze image crop_type
    (r.status = "fresh" ↔ r.spoilage_score < 3/10) ∧
    (r.status = "fresh" ∨ r.status = "spoiled") ∧
    (r.status = "fresh" → r.confidence = min (1 - r.spoilage_score) (95/100)) ∧
    (r.status = "spoiled" → r.confidence = min r.spoilage_score (95/100)) := by
  unfold assessQuality
  rw [if_neg hsz, hfeat]
  by_cases h : calculateSpoilageScore c t sh su crop_type < 3/10 <;> simp [h]

/-- Witness for `assess_quality_decision_rule` at a concrete succeeding
input: a 1×1 image with all sub-scores `0` comes out `fresh` with
confidence `0.95`. -/
theorem assess_quality_decision_rule_witness :
    let analyze : Image → String → Option (ℚ × ℚ × ℚ × ℚ) :=
      fun _ _ => some (0, 0, 0, 0)
    let img : Image := [[(7, 7, 7)]]
    let r := assessQuality analyze img "corn"
    (r.status = "fresh" ↔ r.spoilage_score < 3/10) ∧
    (r.status = "fresh" ∨ r.status = "spoiled") ∧
    (r.status = "fresh" → r.confidence = min (1 - r.spoilage_score) (95/100)) ∧
    (r.status = "spoiled" → r.confidence = min r.spoilage_score (95/100)) :=
  assess_quality_decision_rule _ _ "corn" 0 0 0 0 (by decide) rfl

/-- **C4.** A zero-size image, and more generally any failure of the
feature computation (modelled by `analyze` returning `none`, the image of
the `except` clause at line 57), makes `assess_quality` return the fixed
fallback record `{status: unknown, confidence: 0.5, spoilage_score: 0.5,
indicators all 0.5}`; conversely status `unknown` arises only on those two
paths, never from a successful computation.  (The embedded function is
total, so no error reaches the caller.) -/
theorem assess_quality_fallback
    (analyze : Image → String → Option (ℚ × ℚ × ℚ × ℚ))
    (image : Image) (crop_type : String) :
    (imageSize image = 0 →
      assessQuality analyze image crop_type = getDefaultResult) ∧
    (analyze image crop_type = none →
      assessQuality analyze image crop_type = getDefaultResult) ∧
    ((assessQuality analyze image crop_type).status = "unknown" →
      assessQuality analyze image crop_type = getDefaultResult ∧
      (imageSize image = 0 ∨ analyze image crop_type = none)) ∧
    getDefaultResult =
      { status := "unknown", confidence := 1/2, spoilage_score := 1/2,
        indicators := (1/2, 1/2, 1/2, 1/2) } := by
  by_cases hsz : imageSize image = 0
  · simp [assessQuality, hsz, getDefaultResult]
  · cases hfeat : analyze image crop_type with
    | none => simp [assessQuality, hsz, hfeat, getDefaultResult]
    | some v =>
        obtain ⟨c, t, sh, su⟩ := v
        by_cases h : calculateSpoilageScore c t sh su crop_type < 3/10 <;>
          simp [assessQuality, hsz, hfeat, h, getDefaultResult]

/-- Witness for `assess_quality_fallback`: the empty image triggers the
fallback, and so does a raising feature computation on a nonempty image. -/
theorem assess_quality_fallback_witness :
    assessQuality (fun _ _ => some (0, 0, 0, 0)) ([] : Image) "corn"
        = getDefaultResult ∧
    assessQuality (fun _ _ => none) [[(1, 2, 3)]] "corn"
        = getDefaultResult :=
  ⟨(assess_quality_fallback _ _ _).1 (by decide),
   (assess_quality_fallback _ _ _).2.1 rfl⟩

/-- **C9.** Every row of the per-crop weight table (including the corn
fallback row used for unknown crops) sums to exactly `1`; hence for
sub-scores in `[0,1]` the fused spoilage score is a convex combination
lying in `[0,1]`, and the `min(·, 1.0)` clamp of
`_calculate_spoilage_score` is the identity there. -/
theorem spoilage_weights_convex (crop_type : String) (c t sh su : ℚ)
    (hc0 : 0 ≤ c) (hc1 : c ≤ 1) (ht0 : 0 ≤ t) (ht1 : t ≤ 1)
    (hsh0 : 0 ≤ sh) (hsh1 : sh ≤ 1) (hsu0 : 0 ≤ su) (hsu1 : su ≤ 1) :
    (cropWeights crop_type).1 + (cropWeights crop_type).2.1 +
      (cropWeights crop_type).2.2.1 + (cropWeights crop_type).2.2.2 = 1 ∧
    0 ≤ c * (cropWeights crop_type).1 + t * (cropWeights crop_type).2.1 +
      sh * (cropWeights crop_type).2.2.1 + su * (cropWeights crop_type).2.2.2 ∧
    c * (cropWeights crop_type).1 + t * (cropWeights crop_type).2.1 +
      sh * (cropWeights crop_type).2.2.1 + su * (cropWeights crop_type).2.2.2 ≤ 1 ∧
    calculateSpoilageScore c t sh su crop_type =
      c * (cropWeights crop_type).1 + t * (cropWeights crop_type).2.1 +
        sh * (cropWeights crop_type).2.2.1 + su * (cropWeights crop_type).2.2.2 := by
  unfold calculateSpoilageScore cropWeights
  split_ifs <;>
    exact ⟨by norm_num, by linarith, by linarith,
      by rw [min_eq_left (by linarith)]⟩

/-- Witness for `spoilage_weights_convex` at mid-scale sub-scores for
tomato. -/
theorem spoilage_weights_convex_witness :
    (cropWeights "tomato").1 + (cropWeights "tomato").2.1 +
      (cropWeights "tomato").2.2.1 + (cropWeights "tomato").2.2.2 = 1 ∧
    0 ≤ (1/2 : ℚ) * (cropWeights "tomato").1 + 1/2 * (cropWeights "tomato").2.1 +
      1/2 * (cropWeights "tomato").2.2.1 + 1/2 * (cropWeights "tomato").2.2.2 ∧
    (1/2 : ℚ) * (cropWeights "tomato").1 + 1/2 * (cropWeights "tomato").2.1 +
      1/2 * (cropWeights "tomato").2.2.1 + 1/2 * (cropWeights "tomato").2.2.2 ≤ 1 ∧
    calculateSpoilageScore (1/2) (1/2) (1/2) (1/2) "tomato" =
      (1/2 : ℚ) * (cropWeights "tomato").1 + 1/2 * (cropWeights "tomato").2.1 +
        1/2 * (cropWeights "tomato").2.2.1 + 1/2 * (cropWeights "tomato").2.2.2 :=
  spoilage_weights_convex "tomato" (1/2) (1/2) (1/2) (1/2)
    (by norm_num) (by norm_num) (by norm_num) (by norm_num)
    (by norm_num) (by norm_num) (by norm_num) (by norm_num)

/-- **C10.** The unstated status–confidence link of `assess_quality`:
`fresh` results carry confidence strictly above `0.7`, `spoiled` results
at least `0.3`, and `unknown` results exactly `0.5`. -/
theorem assess_quality_status_confidence
    (analyze : Image → String → Option (ℚ × ℚ × ℚ × ℚ))
    (image : Image) (crop_type : String) :
    let r := assessQuality analyze image crop_type
    (r.status = "fresh" → 7/10 < r.confidence) ∧
    (r.status = "spoiled" → 3/10 ≤ r.confidence) ∧
    (r.status = "unknown" → r.confidence = 1/2) := by
  by_cases hsz : imageSize image = 0
  · simp [assessQuality, hsz, getDefaultResult]
  · cases hfeat : analyze image crop_type with
    | none => simp [assessQuality, hsz, hfeat, getDefaultResult]
    | some v =>
        obtain ⟨c, t, sh, su⟩ := v
        by_cases h : calculateSpoilageScore c t sh su crop_type < 3/10
        · simp [assessQuality, hsz, hfeat, h]
          exact ⟨by linarith, by norm_num⟩
        · simp [assessQuality, hsz, hfeat, h]
          exact ⟨le_of_not_lt h, by norm_num⟩

unseal Rat.add Rat.mul Rat.inv Rat.sub in
/-- Witness for `assess_quality_status_confidence` on the three statuses:
a fresh result, a spoiled result and the unknown fallback. -/
theorem assess_quality_status_confidence_witness :
    7/10 < (assessQuality (fun _ _ => some (0, 0, 0, 0))
      [[(1, 1, 1)]] "corn").confidence ∧
    3/10 ≤ (assessQuality (fun _ _ => some (1, 1, 1, 1))
      [[(1, 1, 1)]] "corn").confidence ∧
    (assessQuality (fun _ _ => some (0, 0, 0, 0))
      ([] : Image) "corn").confidence = 1/2 :=
  ⟨(assess_quality_status_confidence _ _ _).1 (by decide),
   (assess_quality_status_confidence _ _ _).2.1 (by decide),
   (assess_quality_status_confidence _ _ _).2.2 (by decide)⟩

/-- `determineSeverity s = "mild"` exactly below `0.3`. -/
theorem determineSeverity_mild_iff (s : ℚ) :
    determineSeverity s = "mild" ↔ s < 3/10 := by
  unfold determineSeverity
  split_ifs with h1 h2 h3 <;> simp [h1]

/-- `determineSeverity s = "moderate"` exactly on `[0.3, 0.6)`. -/
theorem determineSeverity_moderate_iff (s : ℚ) :
    determineSeverity s = "moderate" ↔ 3/10 ≤ s ∧ s < 6/10 := by
  unfold determineSeverity
  split_ifs with h1 h2 h3
  · exact ⟨fun h => absurd h (by decide), fun h => absurd h.1 (not_le.mpr h1)⟩
  · exact ⟨fun _ => ⟨not_lt.mp h1, h2⟩, fun _ => rfl⟩
  · exact ⟨fun h => absurd h (by decide), fun h => absurd h.2 h2⟩
  · exact ⟨fun h => absurd h (by decide), fun h => absurd h.2 h2⟩

/-- `determineSeverity s = "severe"` exactly on `[0.6, 0.8)`. -/
theorem determineSeverity_severe_iff (s : ℚ) :
    determineSeverity s = "severe" ↔ 6/10 ≤ s ∧ s < 8/10 := by
  unfold determineSeverity
  split_ifs with h1 h2 h3
  · exact ⟨fun h => absurd h (by decide), fun h => absurd h.1 (not_le.mpr (by linarith))⟩
  · exact ⟨fun h => absurd h (by decide), fun h => absurd h.1 (not_le.mpr h2)⟩
  · exact ⟨fun _ => ⟨not_lt.mp h2, h3⟩, fun _ => rfl⟩
  · exact ⟨fun h => absurd h (by decide), fun h => absurd h.2 h3⟩

/-- `determineSeverity s = "critical"` exactly from `0.8` up. -/
theorem determineSeverity_critical_iff (s : ℚ) :
    determineSeverity s = "critical" ↔ 8/10 ≤ s := by
  unfold determineSeverity
  split_ifs with h1 h2 h3
  · exact ⟨fun h => absurd h (by decide), fun h => absurd h (not_le.mpr (by linarith))⟩
  · exact ⟨fun h => absurd h (by decide), fun h => absurd h (not_le.mpr (by linarith))⟩
  · exact ⟨fun h => absurd h (by decide), fun h => absurd h (not_le.mpr h3)⟩
  · exact ⟨fun _ => not_lt.mp h3, fun _ => rfl⟩

/-- **C3.** `_determine_severity` buckets every score into exactly one of
the four severities, with the stated boundaries, and each boundary value
`0.3`, `0.6`, `0.8` falls in the higher bucket. -/
theorem determine_severity_partition (s : ℚ) :
    (determineSeverity s = "mild" ↔ s < 3/10) ∧
    (determineSeverity s = "moderate" ↔ 3/10 ≤ s ∧ s < 6/10) ∧
    (determineSeverity s = "severe" ↔ 6/10 ≤ s ∧ s < 8/10) ∧
    (determineSeverity s = "critical" ↔ 8/10 ≤ s) ∧
    determineSeverity (3/10) = "moderate" ∧
    determineSeverity (6/10) = "severe" ∧
    determineSeverity (8/10) = "critical" :=
  ⟨determineSeverity_mild_iff s, determineSeverity_moderate_iff s,
   determineSeverity_severe_iff s, determineSeverity_critical_iff s,
   (determineSeverity_moderate_iff _).mpr ⟨le_refl _, by norm_num⟩,
   (determineSeverity_severe_iff _).mpr ⟨le_refl _, by norm_num⟩,
   (determineSeverity_critical_iff _).mpr (le_refl _)⟩

unseal Rat.add Rat.mul Rat.inv Rat.sub in
/-- **C5, counterexample.**  The claim says the unrecognized-species
result is exactly the three-field record `{disease_type, confidence,
severity}`; the code's dict (lines 106-111) also carries a `description`
field, so the returned record differs from the claimed one. -/
theorem detect_disease_unknown_species_counterexample :
    detectDisease (fun _ => 0) "banana" ≠
      [("disease_type", PyVal.str "unknown_spoilage"),
       ("confidence", PyVal.rat (1/2)),
       ("severity", PyVal.str "moderate")] := by decide

/-- **C5, amended.**  For every image (the detector outputs `d` are not
consulted) and every species string outside the catalog, `detect_disease`
returns exactly the four-field record `{disease_type: unknown_spoilage,
confidence: 0.5, severity: moderate, description: "Spoilage detected but
specific type could not be determined"}` — in particular no `all_scores`
field. -/
theorem detect_disease_unknown_species (d : String → ℚ) (crop_type : String)
    (h : crop_type ∉ (["corn", "tomato", "yam", "cassava"] : List String)) :
    detectDisease d crop_type =
      [("disease_type", PyVal.str "unknown_spoilage"),
       ("confidence", PyVal.rat (1/2)),
       ("severity", PyVal.str "moderate"),
       ("description",
        PyVal.str "Spoilage detected but specific type could not be determined")] := by
  simp only [List.mem_cons, List.not_mem_nil, or_false, not_or] at h
  obtain ⟨h1, h2, h3, h4⟩ := h
  unfold detectDisease
  rw [show diseasePatterns.lookup crop_type = none from by
    simp [diseasePatterns, List.lookup,
      show (crop_type == "corn") = false from beq_eq_false_iff_ne.mpr h1,
      show (crop_type == "tomato") = false from beq_eq_false_iff_ne.mpr h2,
      show (crop_type == "yam") = false from beq_eq_false_iff_ne.mpr h3,
      show (crop_type == "cassava") = false from beq_eq_false_iff_ne.mpr h4]]

/-- Witness for `detect_disease_unknown_species` at the species
`"banana"`. -/
theorem detect_disease_unknown_species_witness :
    detectDisease (fun _ => 0) "banana" =
      [("disease_type", PyVal.str "unknown_spoilage"),
       ("confidence", PyVal.rat (1/2)),
       ("severity", PyVal.str "moderate"),
       ("description",
        PyVal.str "Spoilage detected but specific type could not be determined")] :=
  detect_disease_unknown_species _ "banana" (by decide)

/-- Each color-pattern contribution is nonnegative when the sub-detector
outputs are (each is a mask mean or clamped statistic in the source). -/
theorem colorPatternTerm_nonneg (d : String → ℚ) (hd : ∀ p, 0 ≤ d p)
    (pattern : String) : 0 ≤ colorPatternTerm d pattern := by
  unfold colorPatternTerm
  repeat' apply ite_nonneg
  all_goals first
    | exact mul_nonneg (hd _) (by norm_num)
    | exact le_refl 0

/-- Each texture-pattern contribution is nonnegative when the sub-detector
outputs are. -/
theorem texturePatternTerm_nonneg (d : String → ℚ) (hd : ∀ p, 0 ≤ d p)
    (pattern : String) : 0 ≤ texturePatternTerm d pattern := by
  unfold texturePatternTerm
  repeat' apply ite_nonneg
  all_goals first
    | exact mul_nonneg (hd _) (by norm_num)
    | exact le_refl 0

/-- A left fold accumulating nonnegative increments stays nonnegative. -/
theorem foldl_add_nonneg (f : String → ℚ) (hf : ∀ p, 0 ≤ f p)
    (l : List String) (a : ℚ) (ha : 0 ≤ a) :
    0 ≤ l.foldl (fun acc p => acc + f p) a := by
  induction l generalizing a with
  | nil => exact ha
  | cons x xs ih =>
      rw [List.foldl_cons]
      exact ih _ (show (0:ℚ) ≤ a + f x by have := hf x; linarith)

/-- A disease candidate's fused score is nonnegative for nonnegative
sub-detector outputs. -/
theorem analyzeDiseasePattern_nonneg (d : String → ℚ) (hd : ∀ p, 0 ≤ d p)
    (cps tps : List String) : 0 ≤ analyzeDiseasePattern d cps tps := by
  unfold analyzeDiseasePattern analyzeColorPatterns analyzeTexturePatterns
  have h1 : (0:ℚ) ≤ min (cps.foldl (fun acc p => acc + colorPatternTerm d p) 0) 1 :=
    le_min (foldl_add_nonneg _ (colorPatternTerm_nonneg d hd) _ _ le_rfl) (by norm_num)
  have h2 : (0:ℚ) ≤ min (tps.foldl (fun acc p => acc + texturePatternTerm d p) 0) 1 :=
    le_min (foldl_add_nonneg _ (texturePatternTerm_nonneg d hd) _ _ le_rfl) (by norm_num)
  have := mul_nonneg (show (0:ℚ) ≤ 6/10 by norm_num) h1
  have := mul_nonneg (show (0:ℚ) ≤ 4/10 by norm_num) h2
  linarith

/-- `pickMax` keeps a nonnegative score if the start and every candidate
score is nonnegative. -/
theorem pickMax_nonneg (x : String × ℚ) (l : List (String × ℚ))
    (hx : 0 ≤ x.2) (hl : ∀ y ∈ l, 0 ≤ y.2) : 0 ≤ (pickMax x l).2 := by
  unfold pickMax
  induction l generalizing x with
  | nil => exact hx
  | cons y ys ih =>
      have hy : 0 ≤ y.2 := hl y (List.mem_cons_self y ys)
      have hys : ∀ z ∈ ys, 0 ≤ z.2 := fun z hz => hl z (List.mem_cons_of_mem y hz)
      by_cases h : x.2 < y.2 <;> simp only [List.foldl_cons, h, if_pos, if_neg,
        ite_true, ite_false, reduceIte] <;> exact ih _ (by assumption) hys

/-- **C6.** For every image and crop string, `assess_quality`'s confidence
and `detect_disease`'s confidence lie in `[0, 0.95]`.  The hypothesis `hd`
records that every Python sub-detector returns a nonnegative value (each
is a boolean-mask mean or a `min`/`max`-clamped statistic). -/
theorem confidence_bounds
    (analyze : Image → String → Option (ℚ × ℚ × ℚ × ℚ))
    (image : Image) (cropQ : String)
    (d : String → ℚ) (cropD : String) (hd : ∀ p, 0 ≤ d p) :
    (0 ≤ (assessQuality analyze image cropQ).confidence ∧
      (assessQuality analyze image cropQ).confidence ≤ 95/100) ∧
    (0 ≤ getConfidence (detectDisease d cropD) ∧
      getConfidence (detectDisease d cropD) ≤ 95/100) := by
  constructor
  · by_cases hsz : imageSize image = 0
    · simp [assessQuality, hsz, getDefaultResult]
      norm_num
    · cases hfeat : analyze image cropQ with
      | none =>
          simp [assessQuality, hsz, hfeat, getDefaultResult]
          norm_num
      | some v =>
          obtain ⟨c, t, sh, su⟩ := v
          by_cases h : calculateSpoilageScore c t sh su cropQ < 3/10
          · simp only [assessQuality, hsz, hfeat, h, if_neg, if_pos, ite_true,
              ite_false, reduceIte]
            exact ⟨le_min (by linarith) (by norm_num), min_le_right _ _⟩
          · simp only [assessQuality, hsz, hfeat, h, if_neg, if_pos, ite_true,
              ite_false, reduceIte]
            exact ⟨le_min (by linarith [le_of_not_lt h]) (by norm_num),
              min_le_right _ _⟩
  · cases hlk : diseasePatterns.lookup cropD with
    | none =>
        have hres : getConfidence (detectDisease d cropD) = 1/2 := by
          unfold detectDisease
          rw [hlk]
          rfl
        rw [hres]
        norm_num
    | some crop_diseases =>
        cases hds : crop_diseases.map
            (fun e => (e.1, analyzeDiseasePattern d e.2.1 e.2.2)) with
        | nil =>
            have hres : getConfidence (detectDisease d cropD) = min 0 (95/100) := by
              unfold detectDisease
              rw [hlk]
              simp only [hds]
              rfl
            rw [hres]
            norm_num
        | cons x rest =>
            have hx : 0 ≤ x.2 ∧ ∀ y ∈ rest, 0 ≤ y.2 := by
              have hmem : ∀ y ∈ x :: rest, 0 ≤ y.2 := by
                rw [← hds]
                intro y hy
                obtain ⟨e, _, he⟩ := List.mem_map.mp hy
                rw [← he]
                exact analyzeDiseasePattern_nonneg d hd _ _
              exact ⟨hmem x (List.mem_cons_self x rest),
                fun y hy => hmem y (List.mem_cons_of_mem x hy)⟩
            have hbest : 0 ≤ (pickMax x rest).2 :=
              pickMax_nonneg x rest hx.1 hx.2
            have hres : getConfidence (detectDisease d cropD) =
                min (pickMax x rest).2 (95/100) := by
              unfold detectDisease
              rw [hlk]
              simp only [hds]
              rfl
            rw [hres]
            exact ⟨le_min hbest (by norm_num), min_le_right _ _⟩

unseal Rat.add Rat.mul Rat.inv Rat.sub in
/-- Witness for `confidence_bounds` at a concrete image, crops and
sub-detector outputs. -/
theorem confidence_bounds_witness :
    (0 ≤ (assessQuality (fun _ _ => some (0, 0, 0, 0)) [[(1, 1, 1)]] "corn").confidence ∧
      (assessQuality (fun _ _ => some (0, 0, 0, 0)) [[(1, 1, 1)]] "corn").confidence ≤ 95/100) ∧
    (0 ≤ getConfidence (detectDisease (fun _ => 1/2) "tomato") ∧
      getConfidence (detectDisease (fun _ => 1/2) "tomato") ≤ 95/100) :=
  confidence_bounds _ [[(1, 1, 1)]] "corn" (fun _ => 1/2) "tomato"
    (fun _ => by norm_num)

/-- **C2.** Whenever the classifier's feature computation succeeds and a
distribution is returned, fusing `0.7·base + 0.3·heuristic` and applying
softmax yields four nonnegative probabilities summing to 1 within `1e-6`
(in fact exactly 1 in `ℝ`), for every input image and base score vector. -/
theorem species_distribution_normalized (image : Image) (base : Fin 4 → ℝ)
    (p : Fin 4 → ℝ) (h : applyCropHeuristics image base = some p) :
    (∀ i, 0 ≤ p i) ∧ |(∑ i, p i) - 1| < 1/1000000 := by
  obtain ⟨st, hst, hp⟩ := Option.map_eq_some'.mp h
  have hS : 0 < ∑ j, Real.exp (finalScores base st j) :=
    Finset.sum_pos (fun j _ => Real.exp_pos _) Finset.univ_nonempty
  subst hp
  constructor
  · intro i
    exact div_nonneg (Real.exp_pos _).le hS.le
  · have hsum : (∑ i, softmax (finalScores base st) i) = 1 := by
      unfold softmax
      rw [← Finset.sum_div, div_self (ne_of_gt hS)]
    rw [hsum]
    norm_num

unseal Rat.add Rat.mul Rat.inv Rat.sub in
/-- Witness for `species_distribution_normalized`: on the concrete 2×1
black image with a uniform base vector, extraction succeeds and the
returned distribution is nonnegative and normalized. -/
theorem species_distribution_normalized_witness :
    applyCropHeuristics darkTestImage (fun _ => 1/4) =
      some (softmax (finalScores (fun _ => 1/4) darkStats)) ∧
    (∀ i, 0 ≤ softmax (finalScores (fun _ => 1/4) darkStats) i) ∧
    |(∑ i, softmax (finalScores (fun _ => 1/4) darkStats) i) - 1| < 1/1000000 := by
  have hst : extractStats darkTestImage = some darkStats := by decide
  have happ : applyCropHeuristics darkTestImage (fun _ => 1/4) =
      some (softmax (finalScores (fun _ => 1/4) darkStats)) := by
    unfold applyCropHeuristics
    rw [hst]
    rfl
  exact ⟨happ, (species_distribution_normalized _ _ _ happ).1,
    (species_distribution_normalized _ _ _ happ).2⟩

unseal Rat.add Rat.mul Rat.inv Rat.sub in
/-- **C7.** Evaluation of the source's `_rgb_to_hsv` at the pure-green
pixel `(0, 255, 0)`: the channel spread `diff` is `1 ≠ 0`, yet the
computed hue is `0` (the `diff != 0` mask is computed but never used to
assign hue), refuting "hue left at 0 exactly where diff = 0" — a standard
conversion would give this pixel hue `1/3` (120°). -/
theorem rgb_to_hsv_hue_left_zero :
    (pixelHsv (0, 255, 0)).1 = 0 ∧ pixelDiff (0, 255, 0) = 1 ∧
    ¬((pixelHsv (0, 255, 0)).1 = 0 ↔ pixelDiff (0, 255, 0) = 0) := by decide

unseal Rat.add Rat.mul Rat.inv Rat.sub in
/-- **C8.** Evaluation of the classifier on the all-yellow, elongated
2×4 test image with a uniform base vector: feature extraction succeeds,
and in the returned distribution corn (index 0) is *strictly below*
tomato (index 3) — because hue is left at 0 everywhere, `dominant_yellow`
is identically 0 while `dominant_red` fires on every saturated bright
pixel, so the corn heuristic scores 0 and the tomato heuristic 0.7. -/
theorem yellow_elongated_image_favors_tomato :
    applyCropHeuristics yellowTestImage (fun _ => 1/4) =
      some (softmax (finalScores (fun _ => 1/4) yellowStats)) ∧
    softmax (finalScores (fun _ => 1/4) yellowStats) 0 <
      softmax (finalScores (fun _ => 1/4) yellowStats) 3 := by
  have hst : extractStats yellowTestImage = some yellowStats := by decide
  have happ : applyCropHeuristics yellowTestImage (fun _ => 1/4) =
      some (softmax (finalScores (fun _ => 1/4) yellowStats)) := by
    unfold applyCropHeuristics
    rw [hst]
    rfl
  refine ⟨happ, ?_⟩
  have hS : 0 < ∑ j, Real.exp (finalScores (fun _ => 1/4) yellowStats j) :=
    Finset.sum_pos (fun j _ => Real.exp_pos _) Finset.univ_nonempty
  have hcorn : cornScore yellowStats = 0 := by
    unfold cornScore yellowStats
    norm_num
  have hsmooth : smoothF yellowStats = 1 := by
    unfold smoothF yellowStats
    norm_num
  have htom : tomatoScore yellowStats = 7/10 := by
    unfold tomatoScore
    rw [hsmooth]
    norm_num [yellowStats]
  have hf : finalScores (fun _ => 1/4) yellowStats 0 <
      finalScores (fun _ => 1/4) yellowStats 3 := by
    unfold finalScores heuristicScores
    simp only [show ((3 : Fin 4) = 0) = False from by decide,
      show ((3 : Fin 4) = 1) = False from by decide,
      show ((3 : Fin 4) = 2) = False from by decide,
      eq_self_iff_true, if_true, if_false]
    norm_num [hcorn, htom]
  unfold softmax
  rw [div_lt_div_iff₀ hS hS]
  exact mul_lt_mul_of_pos_right (Real.exp_lt_exp.mpr hf) hS
